import Mathlib

/-
Verification of the lasso event-dispatch core: the `SharedHandler` dispatcher
(pkg/controller/sharedhandler.go, in both its `(key, obj)` and
`(ctx, key, obj)` variants), its `errorList`/`handlerError` aggregation, and
the tracing `ObjectCarrier` with its `Extract`/`Inject` entry points
(pkg/tracing). Observable side effects (spans, metric reports, handler
invocations) are modelled as an explicit event trace; Go mutation is modelled
by state passing; Go panics by an explicit `PanicOr` result.
-/

/-- Go error values as the dispatcher uses them: the distinguished sentinel
`ErrIgnore = errors.New("ignore handler error")`, other base errors
(`errors.New`, distinct from the sentinel even when their text coincides),
and wrapped errors (`fmt.Errorf` with `%w`) carrying their full rendered
message together with the wrapped inner error. -/
inductive GoErr where
  | ignore : GoErr
  | base (msg : String) : GoErr
  | wrap (msg : String) (inner : GoErr) : GoErr
  deriving DecidableEq, Repr

/-- Text of `err.Error()` for a modelled Go error. -/
def GoErr.message : GoErr → String
  | GoErr.ignore => "ignore handler error"
  | GoErr.base msg => msg
  | GoErr.wrap msg _ => msg

/-- Model of `errors.Is(err, target)`: compare with the target at every level
of the unwrap chain, unwrapping through `wrap`. -/
def errorsIs : GoErr → GoErr → Bool
  | e@(GoErr.wrap _ inner), target => decide (e = target) || errorsIs inner target
  | e, target => decide (e = target)

/-- Minimal model of a `runtime.Object` as the dispatcher and the carrier
consume it: whether `meta.Accessor` succeeds, the UID, the annotation map
(`none` models a nil Go map, `some l` an allocated map as an association
list), and an opaque marker distinguishing otherwise-equal objects. A nil
`runtime.Object` itself is modelled as `none : Option K8sObj`. -/
structure K8sObj where
  accessorOk : Bool
  uid : String
  annotations : Option (List (String × String))
  marker : Nat
  deriving DecidableEq, Repr

/-- Go map update `m[k] = v` on the association-list model of a map. -/
def mapSet : List (String × String) → String → String → List (String × String)
  | [], k, v => [(k, v)]
  | (k1, v1) :: rest, k, v =>
      if k1 = k then (k, v) :: rest else (k1, v1) :: mapSet rest k v

/-- Go map read `m[k]`: the mapped value, or the zero value `""` when the key
is absent (also when the map is nil, handled by callers passing `[]`). -/
def mapGet (m : List (String × String)) (k : String) : String :=
  (m.lookup k).getD ""

/-- Result of a Go computation that can panic at runtime. -/
inductive PanicOr (α : Type) where
  | panics : PanicOr α
  | ok (val : α) : PanicOr α
  deriving DecidableEq, Repr

/-- `ObjectCarrier.Get`: `""` when the carried object is nil, when
`meta.Accessor` fails, or when the annotation map is nil; otherwise the
mapped value (or `""` for an absent key). -/
def ObjectCarrier.Get (o : Option K8sObj) (key : String) : String :=
  match o with
  | none => ""
  | some obj =>
      if obj.accessorOk = false then ""
      else
        match obj.annotations with
        | none => ""
        | some ann => mapGet ann key

/-- `ObjectCarrier.Set`: no-op when the carried object is nil or
`meta.Accessor` fails; otherwise allocate the annotation map if it is nil,
write the value, and store the map back on the object
(`accessor.SetAnnotations`). State passing models the in-place mutation. -/
def ObjectCarrier.Set (o : Option K8sObj) (key value : String) : Option K8sObj :=
  match o with
  | none => none
  | some obj =>
      if obj.accessorOk = false then some obj
      else
        let existingAnn := obj.annotations.getD []
        some { obj with annotations := some (mapSet existingAnn key value) }

/-- One Go slice store `keys[i] = v`: panics (index out of range) when `i` is
not below the slice's length. -/
def sliceStore (keys : List String) (i : Nat) (v : String) : PanicOr (List String) :=
  if i < keys.length then PanicOr.ok (keys.set i v) else PanicOr.panics

/-- The `for _, k := range existingAnn { i++; keys[i] = k }` loop of
`ObjectCarrier.Keys`. Note two properties of the source carried over
faithfully: the loop variable `k` is the map VALUE (the key is discarded by
`_`), and the index is incremented before each store into a slice of length
zero (`make([]string, 0, len(existingAnn))`). -/
def keysLoop : List (String × String) → List String → Nat → PanicOr (List String)
  | [], keys, _ => PanicOr.ok keys
  | (_, v) :: rest, keys, i =>
      match sliceStore keys (i + 1) v with
      | PanicOr.panics => PanicOr.panics
      | PanicOr.ok keys2 => keysLoop rest keys2 (i + 1)

/-- `ObjectCarrier.Keys`: empty for a nil object or failing accessor;
otherwise runs the source's collection loop over the annotation map
(a nil map iterates zero times). -/
def ObjectCarrier.Keys (o : Option K8sObj) : PanicOr (List String) :=
  match o with
  | none => PanicOr.ok []
  | some obj =>
      if obj.accessorOk = false then PanicOr.ok []
      else keysLoop (obj.annotations.getD []) [] 0

/-- `obj.DeepCopyObject()`: calling the method on a nil `runtime.Object`
interface value panics; on a non-nil object it yields an independent copy
(equal as a value in this pure model). -/
def deepCopyObject : Option K8sObj → PanicOr (Option K8sObj)
  | none => PanicOr.panics
  | some o => PanicOr.ok (some o)

/-- One operation the installed text-map propagation codec may perform on a
carrier: read a key, write a key, or enumerate keys. The codec itself is an
external collaborator, so `Extract`/`Inject` are modelled as parameterised
over the list of carrier operations the codec performs. -/
inductive CarrierOp where
  | get (key : String)
  | set (key value : String)
  | keysOp
  deriving DecidableEq, Repr

/-- Run a sequence of codec operations against the carrier's object,
returning whether a panic occurred together with the object's state
afterwards (mutations already applied survive a later panic). -/
def applyOps : Option K8sObj → List CarrierOp → PanicOr Unit × Option K8sObj
  | o, [] => (PanicOr.ok (), o)
  | o, CarrierOp.get _ :: rest => applyOps o rest
  | o, CarrierOp.set k v :: rest => applyOps (ObjectCarrier.Set o k v) rest
  | o, CarrierOp.keysOp :: rest =>
      match ObjectCarrier.Keys o with
      | PanicOr.panics => (PanicOr.panics, o)
      | PanicOr.ok _ => applyOps o rest

/-- `tracing.Extract(ctx, obj)` (the deep-copying variant): deep-copies the
object first, then lets the codec operate on the copy. The second component
is the state of the CALLER's object after the call. -/
def Extract (obj : Option K8sObj) (ops : List CarrierOp) : PanicOr Unit × Option K8sObj :=
  match deepCopyObject obj with
  | PanicOr.panics => (PanicOr.panics, obj)
  | PanicOr.ok copy => ((applyOps copy ops).1, obj)

/-- `tracing.Inject(ctx, obj)`: lets the codec operate directly on the live
object, deliberately mutating it. -/
def Inject (obj : Option K8sObj) (ops : List CarrierOp) : PanicOr Unit × Option K8sObj :=
  applyOps obj ops

/-- `handlerError`: wraps one handler's failure with the handler's name. -/
structure handlerError where
  HandlerName : String
  Err : GoErr
  deriving DecidableEq, Repr

/-- `handlerError.Error()`: `fmt.Sprintf("handler %s: %v", name, err)`. -/
def handlerError.Error (h : handlerError) : String :=
  "handler " ++ h.HandlerName ++ ": " ++ h.Err.message

/-- `handlerError.Cause()`: the wrapped underlying error. -/
def handlerError.Cause (h : handlerError) : GoErr := h.Err

/-- `errorList.Error()`: write each entry's text into a buffer, preceded by
`", "` whenever the buffer is already non-empty. -/
def errorList.Error (e : List handlerError) : String :=
  List.foldl
    (fun buf err => (if 0 < buf.length then buf ++ ", " else buf) ++ handlerError.Error err)
    "" e

/-- The possible non-nil results of `errorList.ToErr`: the sole entry itself
(`e[0]`), or the whole list (`e`, the composite error). -/
inductive DispatchErr where
  | single (entry : handlerError) : DispatchErr
  | multi (entries : List handlerError) : DispatchErr
  deriving DecidableEq, Repr

/-- `Error()` text of a folded dispatch error. -/
def DispatchErr.message : DispatchErr → String
  | DispatchErr.single h => handlerError.Error h
  | DispatchErr.multi es => errorList.Error es

/-- `errorList.ToErr()`: nil for an empty list, the sole entry for a
singleton, the list itself otherwise. -/
def errorList.ToErr (e : List handlerError) : Option DispatchErr :=
  match e with
  | [] => none
  | [x] => some (DispatchErr.single x)
  | _ => some (DispatchErr.multi e)

/-- `errorList.Cause()`: the first entry when any exists, nil otherwise. -/
def errorList.Cause : List handlerError → Option handlerError
  | [] => none
  | x :: _ => some x

/-- Modelled from the spec's words (for comparison with `errorList.Error`):
each entry rendered as `"handler <name>: <message>"` joined by `", "` in
accumulation order. -/
def joinedRendering : List handlerError → String
  | [] => ""
  | [x] => handlerError.Error x
  | x :: rest => handlerError.Error x ++ ", " ++ joinedRendering rest

/-- Helper for relating the buffer fold of `errorList.Error` to
`joinedRendering`: the rendering of a list's tail, each entry preceded by
`", "`. -/
def joinTail : List handlerError → String
  | [] => ""
  | x :: rest => ", " ++ handlerError.Error x ++ joinTail rest

/-- Observable side effects of one `OnChange` pass, in program order: the
trace-context extraction, span starts/ends and statuses, the propagation
injection before each handler call, the handler invocation itself (recording
the object it receives), and the two metric reports per invocation. -/
inductive Event where
  | extract (obj : Option K8sObj)
  | topSpanStart (name : String)
  | handlerSpanStart (name : String)
  | inject (obj : Option K8sObj)
  | invoke (name : String) (key : String) (obj : Option K8sObj)
  | spanStatusError (name : String) (msg : String)
  | handlerSpanEnd (name : String)
  | incTotalHandlerExecutions (gvr : String) (name : String) (failed : Bool)
  | reportReconcileTime (gvr : String) (name : String) (failed : Bool)
  | topSpanStatus (ok : Bool) (msg : String)
  deriving DecidableEq, Repr

/-- A registered handler: its id, name, and the
`SharedControllerHandler.OnChange(key, obj) -> (newObj, err)` callback. -/
structure handlerEntry where
  id : Int
  name : String
  handler : String → Option K8sObj → Option K8sObj × Option GoErr

/-- The `SharedHandler` registry state the dispatch pass snapshots: the
controller's GVR string and the insertion-ordered handler list. -/
structure SharedHandler where
  controllerGVR : String
  handlers : List handlerEntry

/-- The `hasError` classification of one handler result:
`err != nil && !errors.Is(err, ErrIgnore)`. -/
def classify (err : Option GoErr) : Bool :=
  match err with
  | none => false
  | some e => !(errorsIs e GoErr.ignore)

/-- The object-threading policy applied after each handler invocation
(`if newObj != nil && !reflect.ValueOf(newObj).IsNil() { ... }`): adopt the
replacement when its accessor succeeds with a non-empty UID, or when the
accessor itself fails; keep the prior object otherwise. -/
def threadObj (obj : Option K8sObj) (newObj : Option K8sObj) : Option K8sObj :=
  match newObj with
  | none => obj
  | some n =>
      if n.accessorOk = true ∧ n.uid ≠ "" then some n
      else if ¬n.accessorOk = true then some n
      else obj

/-- Error accumulation for one handler result: append a named `handlerError`
exactly when the error is non-nil and not matched by `errors.Is` against the
`ErrIgnore` sentinel. -/
def stepErrs (name : String) (errs : List handlerError) (err : Option GoErr) : List handlerError :=
  match err with
  | none => errs
  | some e => if errorsIs e GoErr.ignore then errs else errs ++ [⟨name, e⟩]

/-- Events of one loop iteration of `SharedHandler.OnChange(key, obj)`:
handler span start, `tracing.Inject` into the current object, the invocation,
the error status on the handler span when the result is a non-ignorable
failure, handler span end, then the two unconditional metric reports. -/
def stepEvents (gvr key name : String) (obj : Option K8sObj) (err : Option GoErr) : List Event :=
  [Event.handlerSpanStart name, Event.inject obj, Event.invoke name key obj]
    ++ (match err with
        | none => []
        | some e =>
            if errorsIs e GoErr.ignore then [] else [Event.spanStatusError name e.message])
    ++ [Event.handlerSpanEnd name,
        Event.incTotalHandlerExecutions gvr name (classify err),
        Event.reportReconcileTime gvr name (classify err)]

/-- In-flight state of one dispatch pass: the current (possibly replaced)
object, the accumulated `errorList`, and the event trace so far. -/
structure DispatchState where
  obj : Option K8sObj
  errs : List handlerError
  events : List Event

/-- One loop iteration of `SharedHandler.OnChange(key, obj)`: invoke the
handler on the current object, accumulate its error, emit the iteration's
events, and thread the replacement object. -/
def processHandler (gvr key : String) (h : handlerEntry) (s : DispatchState) : DispatchState :=
  let res := h.handler key s.obj
  { obj := threadObj s.obj res.1,
    errs := stepErrs h.name s.errs res.2,
    events := s.events ++ stepEvents gvr key h.name s.obj res.2 }

/-- The handler loop of `SharedHandler.OnChange(key, obj)`: sequential, no
early exit. -/
def runHandlers (gvr key : String) : List handlerEntry → DispatchState → DispatchState
  | [], s => s
  | h :: rest, s => runHandlers gvr key rest (processHandler gvr key h s)

/-- `SharedHandler.OnChange(key, obj)` (pkg/controller/sharedhandler.go):
`setupTracingCtx` calls the deep-copying `tracing.Extract` unconditionally,
so on a nil object the call panics at `obj.DeepCopyObject()` before the
top-level span and before the handler loop; on a non-nil object the codec
reads the copy (recorded as `Event.extract`), the top-level span starts,
every snapshot handler runs in order, the accumulated errors are folded
with `ToErr`, and the top-level span status is set accordingly. Returns the
folded error and the event trace, or the panic. -/
def OnChange (M : SharedHandler) (key : String) (obj : Option K8sObj) :
    PanicOr (Option DispatchErr × List Event) :=
  match deepCopyObject obj with
  | PanicOr.panics => PanicOr.panics
  | PanicOr.ok _ =>
      let s0 : DispatchState :=
        { obj := obj, errs := [],
          events := [Event.extract obj, Event.topSpanStart "sharedhandler.OnChange"] }
      let s := runHandlers M.controllerGVR key M.handlers s0
      match errorList.ToErr s.errs with
      | some e =>
          PanicOr.ok (some e, s.events ++ [Event.topSpanStatus false (DispatchErr.message e)])
      | none => PanicOr.ok (none, s.events ++ [Event.topSpanStatus true ""])

/-- Events of one loop iteration of the `(ctx, key, obj)` variant of
`SharedHandler.OnChange`: handler span start, the invocation, a status set on
the PARENT span (error on non-ignorable failure, `"handler success"`
otherwise), the two metric reports, then handler span end (which follows the
object threading in the source, but threading emits no event). -/
def stepEventsCtx (gvr key name : String) (obj : Option K8sObj) (err : Option GoErr) : List Event :=
  [Event.handlerSpanStart name, Event.invoke name key obj]
    ++ (match err with
        | none => [Event.topSpanStatus true "handler success"]
        | some e =>
            if errorsIs e GoErr.ignore then [Event.topSpanStatus true "handler success"]
            else [Event.spanStatusError "SharedHandler.OnChange" e.message])
    ++ [Event.incTotalHandlerExecutions gvr name (classify err),
        Event.reportReconcileTime gvr name (classify err),
        Event.handlerSpanEnd name]

/-- One loop iteration of the `(ctx, key, obj)` variant: identical error
accumulation and object threading, different tracing events. -/
def processHandlerCtx (gvr key : String) (h : handlerEntry) (s : DispatchState) : DispatchState :=
  let res := h.handler key s.obj
  { obj := threadObj s.obj res.1,
    errs := stepErrs h.name s.errs res.2,
    events := s.events ++ stepEventsCtx gvr key h.name s.obj res.2 }

/-- The handler loop of the `(ctx, key, obj)` variant. -/
def runHandlersCtx (gvr key : String) : List handlerEntry → DispatchState → DispatchState
  | [], s => s
  | h :: rest, s => runHandlersCtx gvr key rest (processHandlerCtx gvr key h s)

/-- The `(ctx, key, obj)` variant of `SharedHandler.OnChange`: copy the
snapshot and return `errs.ToErr()` (nil) immediately when it is empty —
before any span and before any tracing call; otherwise start the top-level
span and, only when the global flag is enabled, perform the
distributed-tracing extract and inject — the deep-copying `tracing.Extract`
panics there on a nil object before the handler loop; then run the loop and
return the folded error. -/
def OnChangeCtx (M : SharedHandler) (distTracing : Bool) (key : String) (obj : Option K8sObj) :
    PanicOr (Option DispatchErr × List Event) :=
  if M.handlers.length = 0 then PanicOr.ok (errorList.ToErr [], [])
  else
    match (if distTracing then deepCopyObject obj else PanicOr.ok obj) with
    | PanicOr.panics => PanicOr.panics
    | PanicOr.ok _ =>
        let ev0 :=
          [Event.topSpanStart "SharedHandler.OnChange"]
            ++ (if distTracing then [Event.extract obj] else [])
            ++ (if distTracing then [Event.inject obj] else [])
        let s := runHandlersCtx M.controllerGVR key M.handlers
            { obj := obj, errs := [], events := ev0 }
        PanicOr.ok (errorList.ToErr s.errs, s.events)

/-- Names of handler invocations recorded in an event trace, in order. -/
def invokeNames (evs : List Event) : List String :=
  evs.filterMap fun e =>
    match e with
    | Event.invoke name _ _ => some name
    | _ => none

/-- Invocation names of a possibly-panicking dispatch call: the panic of
either variant occurs before the handler loop, so a panicking call records
no invocation. -/
def invokeNamesP : PanicOr (Option DispatchErr × List Event) → List String
  | PanicOr.panics => []
  | PanicOr.ok r => invokeNames r.2

/-- Concrete object with a metadata accessor and a non-empty UID. -/
def objU : K8sObj :=
  { accessorOk := true, uid := "uid-1", annotations := none, marker := 10 }

/-- Concrete object whose accessor succeeds but whose UID is empty. -/
def objEmptyUid : K8sObj :=
  { accessorOk := true, uid := "", annotations := none, marker := 11 }

/-- Concrete object whose metadata accessor fails. -/
def objNoMeta : K8sObj :=
  { accessorOk := false, uid := "", annotations := none, marker := 12 }

/-- Concrete object with a nil annotation map, for carrier round-trips. -/
def objNilAnn : K8sObj :=
  { accessorOk := true, uid := "uid-2", annotations := none, marker := 13 }

/-- Concrete object with a non-empty annotation map. -/
def objAnn : K8sObj :=
  { accessorOk := true, uid := "uid-3", annotations := some [("a", "b")], marker := 14 }

/-- Concrete initial dispatch state. -/
def stInit : DispatchState := { obj := some objEmptyUid, errs := [], events := [] }

/-- Concrete handler returning a replacement object with a non-empty UID. -/
def hReplace : handlerEntry :=
  { id := 1, name := "h1", handler := fun _ _ => (some objU, none) }

/-- Concrete handler failing with an error that wraps the ignore sentinel. -/
def hIgnore : handlerEntry :=
  { id := 2, name := "h2",
    handler := fun _ _ => (none, some (GoErr.wrap "op: ignore handler error" GoErr.ignore)) }

/-- Concrete handler returning both a real failure and a replacement object
with a non-empty UID. -/
def hFailReplace : handlerEntry :=
  { id := 3, name := "h3", handler := fun _ _ => (some objU, some (GoErr.base "boom")) }

theorem handlerError_Error_pos (h : handlerError) : 0 < (handlerError.Error h).length := by
  simp only [handlerError.Error, String.length_append]
  have h8 : (0 : Nat) < ("handler " : String).length := by decide
  omega

theorem foldl_error_from_buf (es : List handlerError) :
    ∀ buf : String, 0 < buf.length →
      List.foldl
        (fun b err => (if 0 < b.length then b ++ ", " else b) ++ handlerError.Error err)
        buf es = buf ++ joinTail es := by
  induction es with
  | nil => intro buf _; simp [joinTail]
  | cons x rest ih =>
      intro buf hb
      have hb2 : 0 < (buf ++ ", " ++ handlerError.Error x).length := by
        simp only [String.length_append]; omega
      simp only [List.foldl, joinTail]
      rw [if_pos hb, ih _ hb2]
      simp [String.append_assoc]

theorem error_joinTail_eq (x : handlerError) (rest : List handlerError) :
    handlerError.Error x ++ joinTail rest = joinedRendering (x :: rest) := by
  induction rest generalizing x with
  | nil => simp [joinTail, joinedRendering]
  | cons y r ih =>
      rw [show joinedRendering (x :: y :: r)
            = handlerError.Error x ++ ", " ++ joinedRendering (y :: r) from rfl,
          ← ih y]
      simp [joinTail, String.append_assoc]

theorem error_eq_joinedRendering (es : List handlerError) :
    errorList.Error es = joinedRendering es := by
  cases es with
  | nil => rfl
  | cons x rest =>
      unfold errorList.Error
      rw [List.foldl_cons]
      have h0 : ((if 0 < ("" : String).length then ("" : String) ++ ", " else "")
            ++ handlerError.Error x) = handlerError.Error x := by
        rw [if_neg (by decide)]
        exact String.empty_append _
      rw [h0, foldl_error_from_buf rest _ (handlerError_Error_pos x), error_joinTail_eq]

theorem invokeNames_append (a b : List Event) :
    invokeNames (a ++ b) = invokeNames a ++ invokeNames b := by
  simp [invokeNames]

theorem invokeNames_nil : invokeNames [] = [] := rfl

theorem invokeNames_cons_extract (o : Option K8sObj) (evs : List Event) :
    invokeNames (Event.extract o :: evs) = invokeNames evs := rfl

theorem invokeNames_cons_inject (o : Option K8sObj) (evs : List Event) :
    invokeNames (Event.inject o :: evs) = invokeNames evs := rfl

theorem invokeNames_cons_topSpanStart (n : String) (evs : List Event) :
    invokeNames (Event.topSpanStart n :: evs) = invokeNames evs := rfl

theorem invokeNames_cons_topSpanStatus (b : Bool) (m : String) (evs : List Event) :
    invokeNames (Event.topSpanStatus b m :: evs) = invokeNames evs := rfl

theorem invokeNames_stepEvents (gvr key name : String) (obj : Option K8sObj)
    (err : Option GoErr) :
    invokeNames (stepEvents gvr key name obj err) = [name] := by
  cases err with
  | none => rfl
  | some e => cases hc : errorsIs e GoErr.ignore <;> simp [stepEvents, invokeNames, hc]

theorem invokeNames_stepEventsCtx (gvr key name : String) (obj : Option K8sObj)
    (err : Option GoErr) :
    invokeNames (stepEventsCtx gvr key name obj err) = [name] := by
  cases err with
  | none => rfl
  | some e => cases hc : errorsIs e GoErr.ignore <;> simp [stepEventsCtx, invokeNames, hc]

theorem invokeNames_runHandlers (gvr key : String) (hs : List handlerEntry)
    (s : DispatchState) :
    invokeNames (runHandlers gvr key hs s).events
      = invokeNames s.events ++ hs.map handlerEntry.name := by
  induction hs generalizing s with
  | nil => simp [runHandlers]
  | cons h rest ih =>
      rw [runHandlers, ih]
      simp [processHandler, invokeNames_append, invokeNames_stepEvents]

theorem invokeNames_runHandlersCtx (gvr key : String) (hs : List handlerEntry)
    (s : DispatchState) :
    invokeNames (runHandlersCtx gvr key hs s).events
      = invokeNames s.events ++ hs.map handlerEntry.name := by
  induction hs generalizing s with
  | nil => simp [runHandlersCtx]
  | cons h rest ih =>
      rw [runHandlersCtx, ih]
      simp [processHandlerCtx, invokeNames_append, invokeNames_stepEventsCtx]

/-- C1 counterexample: with a non-empty snapshot, `OnChange(key, nil)` panics
in the unconditional deep-copying trace extraction before the handler loop,
so the snapshot's handler is not invoked at all — refuting "each handler in
the snapshot is invoked exactly once" for this call. -/
theorem onChange_nil_object_skips_handlers :
    OnChange { controllerGVR := "g", handlers := [hReplace] } "k" none = PanicOr.panics
    ∧ invokeNamesP (OnChange { controllerGVR := "g", handlers := [hReplace] } "k" none)
        ≠ List.map handlerEntry.name [hReplace] := by
  exact ⟨rfl, by decide⟩

/-- C1 (amended): for every `OnChange` call on a non-nil object, each handler
of the snapshot is invoked exactly once, in snapshot (registration) order —
the recorded invocation names equal the snapshot's name list — and this
holds for arbitrary handler behaviour, so an earlier handler's non-ignorable
error never prevents any later handler of the same snapshot from being
invoked. Proved for both dispatcher variants; on a nil object the
`(key, obj)` variant instead panics in trace extraction before invoking any
handler. -/
theorem onChange_invokes_every_handler_in_order
    (M : SharedHandler) (dist : Bool) (key : String) (o : K8sObj) :
    invokeNamesP (OnChange M key (some o)) = M.handlers.map handlerEntry.name
    ∧ invokeNamesP (OnChangeCtx M dist key (some o)) = M.handlers.map handlerEntry.name := by
  constructor
  · simp only [OnChange, deepCopyObject]
    split <;>
      simp [invokeNamesP, invokeNames_append, invokeNames_runHandlers,
        invokeNames_cons_extract, invokeNames_cons_topSpanStart,
        invokeNames_cons_topSpanStatus, invokeNames_nil]
  · by_cases hlen : M.handlers.length = 0
    · have hnil : M.handlers = [] := List.length_eq_zero.mp hlen
      simp [OnChangeCtx, hlen, hnil, invokeNamesP, invokeNames, errorList.ToErr]
    · cases dist <;>
        simp [OnChangeCtx, hlen, deepCopyObject, invokeNamesP,
          invokeNames_runHandlersCtx, invokeNames_append, invokeNames_cons_extract,
          invokeNames_cons_inject, invokeNames_cons_topSpanStart, invokeNames_nil]

/-- C2: `ToErr` returns nil for an empty accumulation; for a singleton it
returns the sole wrapped entry, whose text is `"handler <name>: <message>"`;
for two or more entries it returns the composite carrying every entry (no
entry dropped), whose text is each entry's rendering joined by `", "` in
accumulation order, and whose primary-cause accessor returns the first
entry. -/
theorem toErr_folds_failures :
    errorList.ToErr [] = none
    ∧ (∀ x : handlerError,
        errorList.ToErr [x] = some (DispatchErr.single x)
        ∧ DispatchErr.message (DispatchErr.single x)
            = "handler " ++ x.HandlerName ++ ": " ++ x.Err.message)
    ∧ (∀ (x y : handlerError) (rest : List handlerError),
        errorList.ToErr (x :: y :: rest) = some (DispatchErr.multi (x :: y :: rest))
        ∧ DispatchErr.message (DispatchErr.multi (x :: y :: rest))
            = joinedRendering (x :: y :: rest)
        ∧ errorList.Cause (x :: y :: rest) = some x) := by
  refine ⟨rfl, fun x => ⟨rfl, rfl⟩, fun x y rest => ⟨rfl, ?_, rfl⟩⟩
  exact error_eq_joinedRendering (x :: y :: rest)

/-- C8 counterexample: `OnChange(key, nil)` with an empty snapshot does not
return nil — it panics in the unconditional deep-copying trace extraction,
which precedes any snapshot handling (a nil return would be
`PanicOr.ok (none, _)`). -/
theorem onChange_empty_snapshot_nil_object_panics :
    OnChange { controllerGVR := "g", handlers := [] } "k" none = PanicOr.panics := rfl

/-- C8 (amended): with an empty snapshot, the `(ctx, key, obj)` variant
returns nil immediately for every object — before starting any span — and
the `(key, obj)` variant returns nil for every non-nil object, invoking no
handler and starting no handler-level span (its event trace contains no
`handlerSpanStart` and no `invoke`); on a nil object the `(key, obj)`
variant panics in trace extraction instead of returning nil. -/
theorem onChange_empty_snapshot_returns_nil
    (gvr key : String) (dist : Bool) (o : K8sObj) (obj : Option K8sObj) :
    OnChange { controllerGVR := gvr, handlers := [] } key (some o)
        = PanicOr.ok (none, [Event.extract (some o),
            Event.topSpanStart "sharedhandler.OnChange", Event.topSpanStatus true ""])
    ∧ OnChangeCtx { controllerGVR := gvr, handlers := [] } dist key obj
        = PanicOr.ok (none, []) :=
  ⟨rfl, rfl⟩

/-- C3: the object-threading policy of one `OnChange` loop iteration. When the
handler returns a non-nil replacement whose accessor succeeds with a
non-empty uid, or whose accessor itself fails, the replacement is adopted as
the dispatch object; when the replacement is non-nil with a successful
accessor but an empty uid, or is nil, the prior object is kept. The first
conjunct records that the remaining handlers of the pass run from exactly
the state this iteration produced, so the adopted object is the one passed
to subsequent handlers. -/
theorem onChange_threads_replacement_objects
    (gvr key : String) (h : handlerEntry) (rest : List handlerEntry) (s : DispatchState) :
    runHandlers gvr key (h :: rest) s = runHandlers gvr key rest (processHandler gvr key h s)
    ∧ (∀ n : K8sObj, (h.handler key s.obj).1 = some n →
        ((n.accessorOk = true ∧ n.uid ≠ "") ∨ n.accessorOk = false) →
        (processHandler gvr key h s).obj = some n)
    ∧ (∀ n : K8sObj, (h.handler key s.obj).1 = some n →
        n.accessorOk = true → n.uid = "" →
        (processHandler gvr key h s).obj = s.obj)
    ∧ ((h.handler key s.obj).1 = none →
        (processHandler gvr key h s).obj = s.obj) := by
  refine ⟨rfl, ?_, ?_, ?_⟩
  · rintro n hn (⟨hok, hu⟩ | hbad)
    · simp [processHandler, threadObj, hn, hok, hu]
    · simp [processHandler, threadObj, hn, hbad]
  · intro n hn hok hu
    simp [processHandler, threadObj, hn, hok, hu]
  · intro hn
    simp [processHandler, threadObj, hn]

theorem onChange_threads_replacement_objects_witness :
    (processHandler "gvr" "key" hReplace stInit).obj = some objU :=
  (onChange_threads_replacement_objects "gvr" "key" hReplace [] stInit).2.1 objU rfl
    (Or.inl ⟨rfl, by decide⟩)

/-- C4: a handler invocation returning an error matched by the ignore
sentinel contributes nothing to the error accumulation, yet its iteration
still reports exactly one execution-counter increment and one duration
observation, both with `failed = false` (and no error status on its span);
an invocation returning any other non-nil error reports the same two
metrics with `failed = true`. -/
theorem ignored_error_metered_not_aggregated
    (gvr key : String) (h : handlerEntry) (s : DispatchState) (e : GoErr)
    (hrun : (h.handler key s.obj).2 = some e) :
    (errorsIs e GoErr.ignore = true →
        (processHandler gvr key h s).errs = s.errs
        ∧ (processHandler gvr key h s).events
            = s.events ++
              [Event.handlerSpanStart h.name, Event.inject s.obj,
               Event.invoke h.name key s.obj, Event.handlerSpanEnd h.name,
               Event.incTotalHandlerExecutions gvr h.name false,
               Event.reportReconcileTime gvr h.name false])
    ∧ (errorsIs e GoErr.ignore = false →
        (processHandler gvr key h s).events
            = s.events ++
              [Event.handlerSpanStart h.name, Event.inject s.obj,
               Event.invoke h.name key s.obj,
               Event.spanStatusError h.name e.message,
               Event.handlerSpanEnd h.name,
               Event.incTotalHandlerExecutions gvr h.name true,
               Event.reportReconcileTime gvr h.name true]) := by
  constructor
  · intro hch
    constructor
    · simp [processHandler, stepErrs, hrun, hch]
    · simp [processHandler, stepEvents, classify, hrun, hch]
  · intro hch
    simp [processHandler, stepEvents, classify, hrun, hch]

theorem ignored_error_metered_not_aggregated_witness :
    (processHandler "gvr" "key" hIgnore stInit).errs = stInit.errs
    ∧ (processHandler "gvr" "key" hIgnore stInit).events
        = stInit.events ++
          [Event.handlerSpanStart hIgnore.name, Event.inject stInit.obj,
           Event.invoke hIgnore.name "key" stInit.obj, Event.handlerSpanEnd hIgnore.name,
           Event.incTotalHandlerExecutions "gvr" hIgnore.name false,
           Event.reportReconcileTime "gvr" hIgnore.name false] :=
  (ignored_error_metered_not_aggregated "gvr" "key" hIgnore stInit
      (GoErr.wrap "op: ignore handler error" GoErr.ignore) rfl).1 (by decide)

/-- C9: ignore classification goes through `errors.Is`, so an error with the
sentinel anywhere in its unwrap chain — not only the sentinel itself —
counts as success for aggregation and contributes no entry; the second
conjunct shows the match survives arbitrary further wrapping. -/
theorem wrapped_ignore_counts_as_success :
    (∀ (gvr key : String) (h : handlerEntry) (s : DispatchState) (e : GoErr),
        (h.handler key s.obj).2 = some e → errorsIs e GoErr.ignore = true →
        (processHandler gvr key h s).errs = s.errs)
    ∧ (∀ (m : String) (e : GoErr),
        errorsIs e GoErr.ignore = true → errorsIs (GoErr.wrap m e) GoErr.ignore = true) := by
  constructor
  · intro gvr key h s e hrun hch
    simp [processHandler, stepErrs, hrun, hch]
  · intro m e hch
    simp [errorsIs, hch]

theorem wrapped_ignore_counts_as_success_witness :
    (processHandler "g2" "k2" hIgnore stInit).errs = stInit.errs :=
  wrapped_ignore_counts_as_success.1 "g2" "k2" hIgnore stInit
    (GoErr.wrap "op: ignore handler error" GoErr.ignore) rfl (by decide)

/-- C10: object threading is independent of failure — an invocation that
returns both a non-nil error and a non-nil replacement still has the
adoption rule applied, so a failing handler's replacement (non-empty uid,
or failing accessor) becomes the dispatch object for subsequent handlers,
in both dispatcher variants. -/
theorem failing_handler_replacement_still_adopted
    (gvr key : String) (h : handlerEntry) (s : DispatchState) (n : K8sObj) (e : GoErr)
    (hobj : (h.handler key s.obj).1 = some n) (_herr : (h.handler key s.obj).2 = some e) :
    (n.accessorOk = true → n.uid ≠ "" →
        (processHandler gvr key h s).obj = some n
        ∧ (processHandlerCtx gvr key h s).obj = some n)
    ∧ (n.accessorOk = false →
        (processHandler gvr key h s).obj = some n
        ∧ (processHandlerCtx gvr key h s).obj = some n) := by
  constructor
  · intro hok hu
    constructor <;> simp [processHandler, processHandlerCtx, threadObj, hobj, hok, hu]
  · intro hbad
    constructor <;> simp [processHandler, processHandlerCtx, threadObj, hobj, hbad]

theorem failing_handler_replacement_still_adopted_witness :
    (processHandler "g3" "k3" hFailReplace stInit).obj = some objU
    ∧ (processHandlerCtx "g3" "k3" hFailReplace stInit).obj = some objU :=
  (failing_handler_replacement_still_adopted "g3" "k3" hFailReplace stInit objU
      (GoErr.base "boom") rfl rfl).1 rfl (by decide)

/-- C5 (code-bug evidence): evaluating `ObjectCarrier.Keys` at the failing
input — a carrier over an object whose accessor succeeds and whose
annotation map is non-empty (`\x7b"a": "b"\x7d`) — panics with an
index-out-of-range: the slice is created with length zero
(`make([]string, 0, len(existingAnn))`) and the loop stores at index `i+1`. -/
theorem keys_panics_on_nonempty_annotations :
    ObjectCarrier.Keys (some objAnn) = PanicOr.panics := rfl

/-- C6 counterexample: `Extract` applied to a nil object panics instead of
being a no-op — the deep copy (`obj.DeepCopyObject()`) dereferences the nil
`runtime.Object` before any nil check — refuting the claim's assertion that
Extract on a nil object does not panic. -/
theorem extract_nil_object_panics :
    Extract none [] = (PanicOr.panics, none) := rfl

/-- C6 (amended): `Extract` lets the propagation codec operate only on a deep
copy, so for every object and every sequence of codec operations the
caller's object (annotation map included) is unchanged by `Extract`;
`Inject` applied to a nil object is a no-op that does not panic; but
`Extract` applied to a nil object panics in the deep-copy step. -/
theorem extract_reads_copy_inject_nil_noop :
    (∀ (obj : Option K8sObj) (ops : List CarrierOp), (Extract obj ops).2 = obj)
    ∧ (∀ ops : List CarrierOp, Inject none ops = (PanicOr.ok (), none))
    ∧ (∀ ops : List CarrierOp, (Extract none ops).1 = PanicOr.panics) := by
  refine ⟨?_, ?_, ?_⟩
  · intro obj ops
    cases obj <;> simp [Extract, deepCopyObject]
  · intro ops
    induction ops with
    | nil => rfl
    | cons op rest ih =>
        cases op with
        | get k => exact ih
        | set k v => exact ih
        | keysOp => exact ih
  · intro ops
    rfl

theorem mapGet_mapSet (m : List (String × String)) (k v : String) :
    mapGet (mapSet m k v) k = v := by
  induction m with
  | nil => simp [mapSet, mapGet, List.lookup]
  | cons p rest ih =>
      obtain ⟨k1, v1⟩ := p
      by_cases hk : k1 = k
      · subst hk
        simp [mapSet, mapGet, List.lookup]
      · have hne : (k == k1) = false := beq_eq_false_iff_ne.mpr (Ne.symm hk)
        simp only [mapSet, if_neg hk]
        simpa [mapGet, List.lookup, hne] using ih

/-- C7: on an object whose accessor succeeds, `Set(key, value)` followed by
`Get(key)` yields the value, with `Set` allocating the annotation map when
it is nil and storing the updated map on the object (state passing models
the in-place mutation of the live object); `Set` is a no-op on a nil object
or failing accessor; `Get` is `""` on a nil object, a failing accessor, or
a nil annotation map. -/
theorem carrier_set_get_roundtrip :
    (∀ (obj : K8sObj) (k v : String), obj.accessorOk = true →
        ObjectCarrier.Get (ObjectCarrier.Set (some obj) k v) k = v
        ∧ ObjectCarrier.Set (some obj) k v
            = some { obj with
                     annotations := some (mapSet (obj.annotations.getD []) k v) })
    ∧ (∀ k v, ObjectCarrier.Set none k v = none)
    ∧ (∀ (obj : K8sObj) (k v : String), obj.accessorOk = false →
        ObjectCarrier.Set (some obj) k v = some obj)
    ∧ (∀ k, ObjectCarrier.Get none k = "")
    ∧ (∀ (obj : K8sObj) (k : String), obj.accessorOk = false →
        ObjectCarrier.Get (some obj) k = "")
    ∧ (∀ (obj : K8sObj) (k : String), obj.accessorOk = true → obj.annotations = none →
        ObjectCarrier.Get (some obj) k = "") := by
  refine ⟨?_, fun k v => rfl, ?_, fun k => rfl, ?_, ?_⟩
  · intro obj k v hok
    constructor
    · simp [ObjectCarrier.Set, ObjectCarrier.Get, hok, mapGet_mapSet]
    · simp [ObjectCarrier.Set, hok]
  · intro obj k v hbad
    simp [ObjectCarrier.Set, hbad]
  · intro obj k hbad
    simp [ObjectCarrier.Get, hbad]
  · intro obj k hok hann
    simp [ObjectCarrier.Get, hok, hann]

theorem carrier_set_get_roundtrip_witness :
    ObjectCarrier.Get (ObjectCarrier.Set (some objNilAnn) "traceparent" "00-abc") "traceparent"
      = "00-abc" :=
  (carrier_set_get_roundtrip.1 objNilAnn "traceparent" "00-abc" rfl).1
